import Mathlib

/-!
Shallow embedding of the django-tmapi topic-map model:
`src/tmapi/models/topic_map.py`, `src/tmapi/models/topic.py` and
`src/tmapi/models/association.py`.

Django rows become records and a topic map's reverse relation
`topic_constructs` becomes an explicit list of topics.  A QuerySet
lookup `get(pred)` returns the unique matching row; the source catches
only `Topic.DoesNotExist`, so the zero-match case becomes the fallback
branch while a multiple-match lookup fails with
`multipleObjectsReturned`.  A many-to-many or reverse-foreign-key `add`
becomes an append, and `save` of a fresh row allocates the next primary
key from the map's id counter.
-/

namespace Tmapi

/-- IRI locator.  Modelled from the spec: `locator.py` is not under
`src/`; the spec describes a Locator as an immutable IRI string
normalized to external form, with equality being normalized-string
equality.  We store the external form directly, so `to_external_form`
returns the stored reference. -/
structure Locator where
  reference : String
deriving Repr, DecidableEq

/-- Modelled from the spec: the Locator's normalized external form. -/
def Locator.to_external_form (l : Locator) : String :=
  l.reference

/-- Error outcomes of the embedded operations.  `modelConstraint` is the
source's `ModelConstraintException`; `multipleObjectsReturned` is
Django's error when a `get` lookup matches more than one row (the
source catches only `DoesNotExist`); `unsupportedQueryError` is the
error raised by `get_roles_played` when an association type is given
without a role type (the source raises a bare `Exception` there, which
the spec's error taxonomy names `UnsupportedQueryError`). -/
inductive TmapiError where
  | modelConstraint
  | multipleObjectsReturned
  | unsupportedQueryError
deriving Repr, DecidableEq

/-- A topic row (`topic.py`).  `subject_identifiers`,
`item_identifiers` and `subject_locators` hold the addresses of the
identifier rows attached to the topic; `types` holds the primary keys
of the topics in the `types` many-to-many set; `topic_map` is the
owning map's primary key. -/
structure Topic where
  id : Nat
  topic_map : Nat
  subject_identifiers : List String
  item_identifiers : List String
  subject_locators : List String
  types : List Nat
deriving Repr, DecidableEq

/-- The Django lookup `subject_identifiers__address=a` on a topic. -/
def Topic.hasSubjectIdentifier (t : Topic) (a : String) : Bool :=
  t.subject_identifiers.any (fun b => b == a)

/-- The Django lookup `item_identifiers__address=a` on a topic. -/
def Topic.hasItemIdentifier (t : Topic) (a : String) : Bool :=
  t.item_identifiers.any (fun b => b == a)

/-- The Django lookup `subject_locators__address=a` on a topic. -/
def Topic.hasSubjectLocator (t : Topic) (a : String) : Bool :=
  t.subject_locators.any (fun b => b == a)

/-- A role row (`role.py` is not under `src/`; its fields are read off
its uses in `association.py` and `topic.py`: an owning association, a
type topic, a player topic and the owning topic map, each stored by
primary key; the row's own auto key is not observable in the claims and
is omitted). -/
structure Role where
  association : Nat
  type : Nat
  player : Nat
  topic_map : Nat
deriving Repr, DecidableEq

/-- An association row (`association.py`): a typed construct owned by a
topic map. -/
structure Association where
  id : Nat
  topic_map : Nat
  type : Nat
deriving Repr, DecidableEq

/-- The value of an occurrence: the source passes either a string or a
`Locator` and branches on `isinstance(value, Locator)`. -/
inductive OccurrenceValue where
  | str (s : String)
  | loc (l : Locator)
deriving Repr, DecidableEq

/-- An occurrence row (`occurrence.py` is not under `src/`; its fields
are read off its construction in `topic.py`: type, value, datatype in
external form, the owning topic and topic map). -/
structure Occurrence where
  type : Nat
  value : OccurrenceValue
  datatype : String
  topic : Nat
  topic_map : Nat
deriving Repr, DecidableEq

/-- Modelled from the spec: `constants.py` is not under `src/`; the
spec fixes the inferred datatypes as `xsd:anyURI` and `xsd:string`. -/
def XSD_ANY_URI : String :=
  "http://www.w3.org/2001/XMLSchema#anyURI"

/-- Modelled from the spec: see `XSD_ANY_URI`. -/
def XSD_STRING : String :=
  "http://www.w3.org/2001/XMLSchema#string"

/-- A topic map (`topic_map.py`).  `topics` is the reverse relation
`topic_constructs`; `other_item_identifiers` holds the addresses of
item identifiers owned by the map's non-topic constructs (every
construct kind carries `item_identifiers` via `ConstructFields`, but
`topic_constructs` ranges over topics only); `next_id` is the
persistence collaborator's primary-key allocator. -/
structure TopicMap where
  id : Nat
  topics : List Topic
  other_item_identifiers : List String
  next_id : Nat
deriving Repr, DecidableEq

/-- Saving a mutated topic row: the row with the same primary key is
replaced. -/
def TopicMap.updateTopic (tm : TopicMap) (t : Topic) : TopicMap :=
  { tm with topics := tm.topics.map (fun u => if u.id = t.id then t else u) }

/-- `TopicMap.create_topic`: builds a `Topic(topic_map=self)` row and
saves it.  The source's `# QAZ` comment marks the automatically
generated item identifier as unimplemented, so no identifier of any
kind is attached. -/
def TopicMap.create_topic (tm : TopicMap) : Topic × TopicMap :=
  let topic : Topic :=
    { id := tm.next_id, topic_map := tm.id, subject_identifiers := [],
      item_identifiers := [], subject_locators := [], types := [] }
  (topic, { tm with topics := tm.topics ++ [topic], next_id := tm.next_id + 1 })

/-- `TopicMap.create_topic_by_subject_identifier`: raises
`ModelConstraintException` on a null argument; otherwise looks up a
topic by subject identifier, falls back to a lookup by item identifier,
and finally creates a fresh topic; in both fallback branches a
`SubjectIdentifier` row for the reference is created and added to the
topic. -/
def TopicMap.create_topic_by_subject_identifier (tm : TopicMap)
    (subject_identifier : Option Locator) :
    Except TmapiError (Topic × TopicMap) :=
  match subject_identifier with
  | none => .error .modelConstraint
  | some si =>
    let reference := si.to_external_form
    match tm.topics.filter (fun t => t.hasSubjectIdentifier reference) with
    | [topic] => .ok (topic, tm)
    | [] =>
      match tm.topics.filter (fun t => t.hasItemIdentifier reference) with
      | [topic] =>
        let topic' :=
          { topic with subject_identifiers := topic.subject_identifiers ++ [reference] }
        .ok (topic', tm.updateTopic topic')
      | [] =>
        let topic' : Topic :=
          { id := tm.next_id, topic_map := tm.id,
            subject_identifiers := [reference], item_identifiers := [],
            subject_locators := [], types := [] }
        .ok (topic', { tm with topics := tm.topics ++ [topic'],
                               next_id := tm.next_id + 1 })
      | _ => .error .multipleObjectsReturned
    | _ => .error .multipleObjectsReturned

/-- `TopicMap.create_topic_by_item_identifier`: raises
`ModelConstraintException` on a null argument; otherwise looks up a
topic by item identifier, falls back to a lookup by subject identifier,
and finally creates a fresh topic; in both fallback branches an
`ItemIdentifier` row for the reference is created and added to the
topic.  Only `topic_constructs` is queried: the item identifiers of
non-topic constructs are never consulted. -/
def TopicMap.create_topic_by_item_identifier (tm : TopicMap)
    (item_identifier : Option Locator) :
    Except TmapiError (Topic × TopicMap) :=
  match item_identifier with
  | none => .error .modelConstraint
  | some ii =>
    let reference := ii.to_external_form
    match tm.topics.filter (fun t => t.hasItemIdentifier reference) with
    | [topic] => .ok (topic, tm)
    | [] =>
      match tm.topics.filter (fun t => t.hasSubjectIdentifier reference) with
      | [topic] =>
        let topic' :=
          { topic with item_identifiers := topic.item_identifiers ++ [reference] }
        .ok (topic', tm.updateTopic topic')
      | [] =>
        let topic' : Topic :=
          { id := tm.next_id, topic_map := tm.id,
            subject_identifiers := [], item_identifiers := [reference],
            subject_locators := [], types := [] }
        .ok (topic', { tm with topics := tm.topics ++ [topic'],
                               next_id := tm.next_id + 1 })
      | _ => .error .multipleObjectsReturned
    | _ => .error .multipleObjectsReturned

/-- `Topic.add_type`: raises `ModelConstraintException` when the type's
topic map differs from the topic's, otherwise adds the type to the
`types` many-to-many set (set semantics: adding a present member is a
no-op). -/
def Topic.add_type (self type : Topic) : Except TmapiError Topic :=
  if self.topic_map ≠ type.topic_map then
    .error .modelConstraint
  else if self.types.contains type.id then
    .ok self
  else
    .ok { self with types := self.types ++ [type.id] }

/-- `Topic.create_occurrence`: when `datatype` is omitted it is
inferred as `xsd:anyURI` for a `Locator` value and `xsd:string`
otherwise; the occurrence stores the datatype's external form.  The
source accepts a `scope` argument but never attaches it to the
occurrence. -/
def Topic.create_occurrence (self type : Topic) (value : OccurrenceValue)
    (scope : Option (List Topic) := none)
    (datatype : Option Locator := none) : Occurrence :=
  let _ := scope
  let dt : Locator :=
    match datatype with
    | some d => d
    | none =>
      match value with
      | .loc _ => Locator.mk XSD_ANY_URI
      | .str _ => Locator.mk XSD_STRING
  { type := type.id, value := value, datatype := dt.to_external_form,
    topic := self.id, topic_map := self.topic_map }

/-- The reverse relation `role_players` of a topic: the roles whose
player is this topic, among the `roles` rows of the store. -/
def Topic.role_players (self : Topic) (roles : List Role) : List Role :=
  roles.filter (fun r => r.player == self.id)

/-- `Topic.get_roles_played`: with a role type, filters the played
roles by `type__pk`; when an association type is also given the source
applies `roles.filter()` with no condition; with an association type
but no role type it raises (`UnsupportedQueryError` in the spec's
taxonomy); with neither it returns all played roles. -/
def Topic.get_roles_played (self : Topic) (roles : List Role)
    (role_type : Option Topic := none)
    (association_type : Option Topic := none) :
    Except TmapiError (List Role) :=
  match role_type with
  | some rt =>
    let rs := (self.role_players roles).filter (fun r => r.type == rt.id)
    match association_type with
    | some _ => .ok (rs.filter (fun _ => true))
    | none => .ok rs
  | none =>
    match association_type with
    | some _ => .error .unsupportedQueryError
    | none => .ok (self.role_players roles)

/-- `Association.create_role`: raises `ModelConstraintException` when
the role type or the player is null; otherwise builds and saves a role
row.  No check relates the type's or player's topic map to the
association's. -/
def Association.create_role (self : Association)
    (role_type player : Option Topic) : Except TmapiError Role :=
  match role_type, player with
  | none, _ => .error .modelConstraint
  | _, none => .error .modelConstraint
  | some rt, some p =>
    .ok { association := self.id, type := rt.id, player := p.id,
          topic_map := self.topic_map }

/-- Well-formedness of a topic map's stored topics: primary keys are
distinct, and the spec's uniqueness invariant holds — no two distinct
topics share a subject-identifier address, an item-identifier address,
or an item-identifier address equal to a subject-identifier address
(equal item and subject identifiers denote the same subject, so in a
merged map they live on one topic). -/
def TopicMap.wf (tm : TopicMap) : Prop :=
  (tm.topics.map Topic.id).Nodup ∧
  ∀ t ∈ tm.topics, ∀ u ∈ tm.topics, ∀ a : String,
    ((t.hasSubjectIdentifier a = true ∧ u.hasSubjectIdentifier a = true) ∨
     (t.hasItemIdentifier a = true ∧ u.hasItemIdentifier a = true) ∨
     (t.hasItemIdentifier a = true ∧ u.hasSubjectIdentifier a = true)) →
    t.id = u.id

/-- A sample topic in map 0, used to instantiate theorems. -/
def sampleTopicA : Topic :=
  { id := 1, topic_map := 0, subject_identifiers := [],
    item_identifiers := [], subject_locators := [], types := [] }

/-- A sample topic in map 1, used to instantiate cross-map theorems. -/
def sampleTopicB : Topic :=
  { id := 2, topic_map := 1, subject_identifiers := [],
    item_identifiers := [], subject_locators := [], types := [] }

/-- A sample association in map 0. -/
def sampleAssoc : Association := { id := 5, topic_map := 0, type := 1 }

/-- A map whose only binding of `collisionLoc` belongs to a non-topic
construct. -/
def collisionMap : TopicMap :=
  { id := 0, topics := [], other_item_identifiers := ["http://example.org/doc"],
    next_id := 0 }

/-- The locator bound by the non-topic construct of `collisionMap`. -/
def collisionLoc : Locator := { reference := "http://example.org/doc" }

/-- A topic map with no topics. -/
def emptyMap : TopicMap :=
  { id := 0, topics := [], other_item_identifiers := [], next_id := 0 }

/-- A sample locator. -/
def witnessLoc : Locator := { reference := "http://example.org/subject" }

/-- A topic owning `witnessLoc` as its subject identifier. -/
def witnessTopic : Topic :=
  { id := 1, topic_map := 0,
    subject_identifiers := ["http://example.org/subject"],
    item_identifiers := [], subject_locators := [], types := [] }

/-- A well-formed map containing just `witnessTopic`. -/
def witnessMap : TopicMap :=
  { id := 0, topics := [witnessTopic], other_item_identifiers := [],
    next_id := 2 }

theorem filter_eq_singleton_of_unique {l : List Topic} {p : Topic → Bool}
    {t : Topic} (hmem : t ∈ l) (hpt : p t = true)
    (huniq : ∀ u ∈ l, p u = true → u.id = t.id)
    (hnd : (l.map Topic.id).Nodup) :
    l.filter p = [t] := by
  induction l with
  | nil => cases hmem
  | cons x xs ih =>
    rw [List.map_cons, List.nodup_cons] at hnd
    obtain ⟨hx, hnd'⟩ := hnd
    by_cases hpx : p x = true
    · have hxid : x.id = t.id := huniq x (List.mem_cons_self x xs) hpx
      have hxt : t = x := by
        rcases List.mem_cons.mp hmem with h | h
        · exact h
        · exact absurd (hxid ▸ List.mem_map.mpr ⟨t, h, rfl⟩) hx
      subst hxt
      rw [List.filter_cons_of_pos hpx]
      have hrest : xs.filter p = [] := by
        refine List.filter_eq_nil_iff.mpr (fun u hu hpu => ?_)
        exact hx (huniq u (List.mem_cons_of_mem t hu) hpu ▸
          List.mem_map.mpr ⟨u, hu, rfl⟩)
      rw [hrest]
    · have hmem' : t ∈ xs := by
        rcases List.mem_cons.mp hmem with h | h
        · exact absurd (h ▸ hpt) hpx
        · exact h
      rw [List.filter_cons_of_neg (by simpa using hpx)]
      exact ih hmem' (fun u hu hpu => huniq u (List.mem_cons_of_mem x hu) hpu)
        hnd'

theorem filter_update_eq_singleton {l : List Topic} (u : Topic) {t' : Topic}
    {p : Topic → Bool} (hid : t'.id = u.id) (hmem : u ∈ l)
    (hnd : (l.map Topic.id).Nodup) (hpt : p t' = true)
    (huniq : ∀ v ∈ l, p v = true → v.id = u.id) :
    (l.map (fun v => if v.id = t'.id then t' else v)).filter p = [t'] := by
  rw [show (fun v : Topic => if v.id = t'.id then t' else v) =
      (fun v : Topic => if v.id = u.id then t' else v) from by rw [hid]]
  induction l with
  | nil => cases hmem
  | cons x xs ih =>
    rw [List.map_cons, List.nodup_cons] at hnd
    obtain ⟨hx, hnd'⟩ := hnd
    rw [List.map_cons]
    by_cases hxu : x.id = u.id
    · rw [if_pos hxu, List.filter_cons_of_pos hpt]
      have hrest : (xs.map (fun v => if v.id = u.id then t' else v)).filter p
          = [] := by
        refine List.filter_eq_nil_iff.mpr (fun w hw hpw => ?_)
        obtain ⟨v, hv, hvw⟩ := List.mem_map.mp hw
        have hvu : v.id ≠ u.id := by
          intro hvu
          exact hx ((hvu.trans hxu.symm) ▸ List.mem_map.mpr ⟨v, hv, rfl⟩)
        rw [if_neg hvu] at hvw
        subst hvw
        exact hvu (huniq v (List.mem_cons_of_mem x hv) (by simpa using hpw))
      rw [hrest]
    · rw [if_neg hxu]
      have hpx : ¬(p x = true) := fun hpx =>
        hxu (huniq x (List.mem_cons_self x xs) hpx)
      rw [List.filter_cons_of_neg (by simpa using hpx)]
      have hmem' : u ∈ xs := by
        rcases List.mem_cons.mp hmem with h | h
        · exact absurd (by rw [h] : x.id = u.id) hxu
        · exact h
      exact ih hmem' hnd'
        (fun v hv hpv => huniq v (List.mem_cons_of_mem x hv) hpv)

/-- Claim C5: `Topic.add_type` fails with a constraint error exactly when
the type's topic map differs from the topic's; when the maps agree the call
succeeds and the type is in the resulting topic's type set. -/
theorem add_type_same_map_check (self type : Topic) :
    (self.topic_map ≠ type.topic_map →
      self.add_type type = .error .modelConstraint) ∧
    (self.topic_map = type.topic_map →
      ∃ r : Topic, self.add_type type = .ok r ∧
        r.types.contains type.id = true) := by
  constructor
  · intro h
    simp [Topic.add_type, h]
  · intro h
    have hne : ¬self.topic_map ≠ type.topic_map := not_not.mpr h
    by_cases hc : self.types.contains type.id = true
    · exact ⟨self, by simp only [Topic.add_type, if_neg hne, if_pos hc], hc⟩
    · refine ⟨{ self with types := self.types ++ [type.id] },
        by simp only [Topic.add_type, if_neg hne, if_neg hc], ?_⟩
      simp [List.contains_eq_any_beq, List.any_append]

/-- Claim C5 witness: a cross-map pair fails, a same-map pair succeeds. -/
theorem add_type_same_map_check_witness :
    (sampleTopicA.topic_map ≠ sampleTopicB.topic_map ∧
      sampleTopicA.add_type sampleTopicB = .error .modelConstraint) ∧
    (sampleTopicA.topic_map = sampleTopicA.topic_map ∧
      ∃ r : Topic, sampleTopicA.add_type sampleTopicA = .ok r ∧
        r.types.contains sampleTopicA.id = true) :=
  ⟨⟨by decide, (add_type_same_map_check sampleTopicA sampleTopicB).1
      (by decide)⟩,
   ⟨rfl, (add_type_same_map_check sampleTopicA sampleTopicA).2 rfl⟩⟩

/-- Claim C6: `Association.create_role` fails with a constraint error exactly
when the role type or the player is null; with both non-null it succeeds and
creates the role, no check relating their topic maps to the association's
being made. -/
theorem create_role_null_check_only (a : Association)
    (role_type player : Option Topic) :
    (a.create_role role_type player = .error .modelConstraint ↔
      role_type = none ∨ player = none) ∧
    (∀ rt p : Topic, role_type = some rt → player = some p →
      a.create_role role_type player =
        .ok { association := a.id, type := rt.id, player := p.id,
              topic_map := a.topic_map }) := by
  constructor
  · cases role_type <;> cases player <;> simp [Association.create_role]
  · intro rt p hrt hp
    subst hrt
    subst hp
    rfl

/-- Claim C6 witness: a role whose type lives in another topic map than the
association is still created. -/
theorem create_role_null_check_only_witness :
    (sampleAssoc.create_role none none = .error .modelConstraint ↔
      (none : Option Topic) = none ∨ (none : Option Topic) = none) ∧
    (sampleTopicB.topic_map ≠ sampleAssoc.topic_map ∧
      sampleAssoc.create_role (some sampleTopicB) (some sampleTopicA) =
        .ok { association := sampleAssoc.id, type := sampleTopicB.id,
              player := sampleTopicA.id, topic_map := sampleAssoc.topic_map }) :=
  ⟨(create_role_null_check_only sampleAssoc none none).1,
   ⟨by decide,
    (create_role_null_check_only sampleAssoc (some sampleTopicB)
      (some sampleTopicA)).2 sampleTopicB sampleTopicA rfl rfl⟩⟩

/-- Claim C7: `Topic.create_occurrence` with datatype omitted infers
`xsd:anyURI` for a Locator value and `xsd:string` for a string value; a given
datatype is carried by the occurrence. -/
theorem create_occurrence_datatype_inference (self type : Topic)
    (value : OccurrenceValue) (scope : Option (List Topic)) :
    ((self.create_occurrence type value scope none).datatype =
      match value with
      | .loc _ => XSD_ANY_URI
      | .str _ => XSD_STRING) ∧
    (∀ d : Locator,
      (self.create_occurrence type value scope (some d)).datatype =
        d.to_external_form) := by
  constructor
  · cases value <;> rfl
  · intro d
    rfl

/-- Claim C8: `Topic.get_roles_played` with an association type but no role
type fails with the unsupported-query error. -/
theorem get_roles_played_asymmetric_rejected (self : Topic)
    (roles : List Role) (association_type : Topic) :
    self.get_roles_played roles none (some association_type) =
      .error .unsupportedQueryError :=
  rfl

/-- Claim C9: with both a role type and an association type,
`Topic.get_roles_played` returns exactly what it returns with the role type
alone: the association-type filtering step applies no condition. -/
theorem get_roles_played_assoc_type_no_filter (self : Topic)
    (roles : List Role) (role_type association_type : Topic) :
    self.get_roles_played roles (some role_type) (some association_type) =
      self.get_roles_played roles (some role_type) none := by
  simp [Topic.get_roles_played]

/-- Claim C10: `TopicMap.create_topic` appends a fresh topic carrying no
subject identifiers, no item identifiers and no subject locators — despite
the docstring, no automatically generated item identifier is attached, so
the new topic owns no address in any identifier namespace. -/
theorem create_topic_no_identifiers (tm : TopicMap) :
    (tm.create_topic).1.subject_identifiers = [] ∧
    (tm.create_topic).1.item_identifiers = [] ∧
    (tm.create_topic).1.subject_locators = [] ∧
    (tm.create_topic).2.topics = tm.topics ++ [(tm.create_topic).1] ∧
    ∀ a : String,
      (tm.create_topic).1.hasSubjectIdentifier a = false ∧
      (tm.create_topic).1.hasItemIdentifier a = false ∧
      (tm.create_topic).1.hasSubjectLocator a = false := by
  exact ⟨rfl, rfl, rfl, rfl, fun a => ⟨rfl, rfl, rfl⟩⟩

/-- Claim C1: `create_topic_by_subject_identifier` fails with a constraint
error on a null locator; on a well-formed map it returns the existing topic
owning the locator as a subject identifier when there is one, else binds the
locator as an additional subject identifier on the topic owning it as an
item identifier and returns that topic, and else creates a fresh topic
carrying the locator as its only subject identifier. -/
theorem create_topic_by_subject_identifier_spec (tm : TopicMap) (l : Locator)
    (hwf : tm.wf) :
    tm.create_topic_by_subject_identifier none = .error .modelConstraint ∧
    (∀ t ∈ tm.topics, t.hasSubjectIdentifier l.to_external_form = true →
      tm.create_topic_by_subject_identifier (some l) = .ok (t, tm)) ∧
    (∀ t ∈ tm.topics,
      (∀ u ∈ tm.topics, u.hasSubjectIdentifier l.to_external_form = false) →
      t.hasItemIdentifier l.to_external_form = true →
      tm.create_topic_by_subject_identifier (some l) =
        .ok ({ t with subject_identifiers :=
                 t.subject_identifiers ++ [l.to_external_form] },
             tm.updateTopic
               { t with subject_identifiers :=
                   t.subject_identifiers ++ [l.to_external_form] })) ∧
    ((∀ u ∈ tm.topics, u.hasSubjectIdentifier l.to_external_form = false ∧
        u.hasItemIdentifier l.to_external_form = false) →
      tm.create_topic_by_subject_identifier (some l) =
        .ok ({ id := tm.next_id, topic_map := tm.id,
               subject_identifiers := [l.to_external_form],
               item_identifiers := [], subject_locators := [], types := [] },
             { tm with
                 topics := tm.topics ++
                   [{ id := tm.next_id, topic_map := tm.id,
                      subject_identifiers := [l.to_external_form],
                      item_identifiers := [], subject_locators := [],
                      types := [] }],
                 next_id := tm.next_id + 1 })) := by
  obtain ⟨hnd, huni⟩ := hwf
  refine ⟨rfl, ?_, ?_, ?_⟩
  · intro t hmem hsi
    have hfil : tm.topics.filter
        (fun u => u.hasSubjectIdentifier l.to_external_form) = [t] :=
      filter_eq_singleton_of_unique hmem hsi
        (fun u hu hpu =>
          huni u hu t hmem l.to_external_form (Or.inl ⟨hpu, hsi⟩))
        hnd
    simp [TopicMap.create_topic_by_subject_identifier, hfil]
  · intro t hmem hnone hii
    have hfsi : tm.topics.filter
        (fun u => u.hasSubjectIdentifier l.to_external_form) = [] :=
      List.filter_eq_nil_iff.mpr (fun u hu => by simp [hnone u hu])
    have hfii : tm.topics.filter
        (fun u => u.hasItemIdentifier l.to_external_form) = [t] :=
      filter_eq_singleton_of_unique hmem hii
        (fun u hu hpu =>
          huni u hu t hmem l.to_external_form (Or.inr (Or.inl ⟨hpu, hii⟩)))
        hnd
    simp [TopicMap.create_topic_by_subject_identifier, hfsi, hfii]
  · intro hnone
    have hfsi : tm.topics.filter
        (fun u => u.hasSubjectIdentifier l.to_external_form) = [] :=
      List.filter_eq_nil_iff.mpr (fun u hu => by simp [(hnone u hu).1])
    have hfii : tm.topics.filter
        (fun u => u.hasItemIdentifier l.to_external_form) = [] :=
      List.filter_eq_nil_iff.mpr (fun u hu => by simp [(hnone u hu).2])
    simp [TopicMap.create_topic_by_subject_identifier, hfsi, hfii]

/-- Claim C1 witness: on the one-topic map, the call with the owned subject
identifier returns the owning topic and leaves the map unchanged. -/
theorem create_topic_by_subject_identifier_spec_witness :
    witnessMap.wf ∧
    witnessMap.create_topic_by_subject_identifier (some witnessLoc) =
      .ok (witnessTopic, witnessMap) := by
  have hwf : witnessMap.wf := by
    constructor
    · simp [witnessMap]
    · intro t ht u hu a _
      simp only [witnessMap, List.mem_singleton] at ht hu
      rw [ht, hu]
  refine ⟨hwf, ?_⟩
  exact (create_topic_by_subject_identifier_spec witnessMap witnessLoc
    hwf).2.1 witnessTopic (by simp [witnessMap]) (by decide)

/-- Claim C2 counterexample: in a map whose only binding of the locator
belongs to a non-topic construct, `create_topic_by_item_identifier` detects
no collision: it succeeds and creates a new topic carrying the same item
identifier, so no check of non-topic constructs precedes the topic
lookups. -/
theorem create_topic_by_item_identifier_collision_counterexample :
    collisionMap.other_item_identifiers.contains
        collisionLoc.to_external_form = true ∧
    collisionMap.create_topic_by_item_identifier (some collisionLoc) =
      .ok ({ id := 0, topic_map := 0, subject_identifiers := [],
             item_identifiers := ["http://example.org/doc"],
             subject_locators := [], types := [] },
           { id := 0,
             topics := [{ id := 0, topic_map := 0, subject_identifiers := [],
                          item_identifiers := ["http://example.org/doc"],
                          subject_locators := [], types := [] }],
             other_item_identifiers := ["http://example.org/doc"],
             next_id := 1 }) := by
  exact ⟨rfl, rfl⟩

/-- Claim C2 (amended): `create_topic_by_item_identifier` makes no check of
non-topic constructs: its outcome — returned topic, resulting topics and id
allocation — is unchanged by whatever item identifiers non-topic constructs
own, and on a well-formed map it returns the topic owning the locator as an
item identifier when there is one, else binds the locator as an additional
item identifier on the topic owning it as a subject identifier, and else
creates a fresh topic carrying the locator as its only item identifier. -/
theorem create_topic_by_item_identifier_topics_only (tm : TopicMap)
    (l : Locator) (oii₁ oii₂ : List String) (hwf : tm.wf) :
    ((({ tm with other_item_identifiers := oii₁ } :
          TopicMap).create_topic_by_item_identifier (some l)).map
        (fun p => (p.1, p.2.topics, p.2.next_id)) =
      (({ tm with other_item_identifiers := oii₂ } :
          TopicMap).create_topic_by_item_identifier (some l)).map
        (fun p => (p.1, p.2.topics, p.2.next_id))) ∧
    (∀ t ∈ tm.topics, t.hasItemIdentifier l.to_external_form = true →
      tm.create_topic_by_item_identifier (some l) = .ok (t, tm)) ∧
    (∀ t ∈ tm.topics,
      (∀ u ∈ tm.topics, u.hasItemIdentifier l.to_external_form = false) →
      t.hasSubjectIdentifier l.to_external_form = true →
      tm.create_topic_by_item_identifier (some l) =
        .ok ({ t with item_identifiers :=
                 t.item_identifiers ++ [l.to_external_form] },
             tm.updateTopic
               { t with item_identifiers :=
                   t.item_identifiers ++ [l.to_external_form] })) ∧
    ((∀ u ∈ tm.topics, u.hasItemIdentifier l.to_external_form = false ∧
        u.hasSubjectIdentifier l.to_external_form = false) →
      tm.create_topic_by_item_identifier (some l) =
        .ok ({ id := tm.next_id, topic_map := tm.id,
               subject_identifiers := [],
               item_identifiers := [l.to_external_form],
               subject_locators := [], types := [] },
             { tm with
                 topics := tm.topics ++
                   [{ id := tm.next_id, topic_map := tm.id,
                      subject_identifiers := [],
                      item_identifiers := [l.to_external_form],
                      subject_locators := [], types := [] }],
                 next_id := tm.next_id + 1 })) := by
  obtain ⟨hnd, huni⟩ := hwf
  refine ⟨?_, ?_, ?_, ?_⟩
  · simp only [TopicMap.create_topic_by_item_identifier]
    rcases hfii : tm.topics.filter
        (fun t => t.hasItemIdentifier l.to_external_form) with
      _ | ⟨t₀, _ | ⟨t₁, rest⟩⟩
    · rcases hfsi : tm.topics.filter
          (fun t => t.hasSubjectIdentifier l.to_external_form) with
        _ | ⟨u₀, _ | ⟨u₁, rest'⟩⟩
      · simp [hfii, hfsi, Except.map]
      · simp [hfii, hfsi, TopicMap.updateTopic, Except.map]
      · simp [hfii, hfsi, Except.map]
    · simp [hfii, Except.map]
    · simp [hfii, Except.map]
  · intro t hmem hii
    have hfil : tm.topics.filter
        (fun u => u.hasItemIdentifier l.to_external_form) = [t] :=
      filter_eq_singleton_of_unique hmem hii
        (fun u hu hpu =>
          huni u hu t hmem l.to_external_form (Or.inr (Or.inl ⟨hpu, hii⟩)))
        hnd
    simp [TopicMap.create_topic_by_item_identifier, hfil]
  · intro t hmem hnone hsi
    have hfii : tm.topics.filter
        (fun u => u.hasItemIdentifier l.to_external_form) = [] :=
      List.filter_eq_nil_iff.mpr (fun u hu => by simp [hnone u hu])
    have hfsi : tm.topics.filter
        (fun u => u.hasSubjectIdentifier l.to_external_form) = [t] :=
      filter_eq_singleton_of_unique hmem hsi
        (fun u hu hpu =>
          huni u hu t hmem l.to_external_form (Or.inl ⟨hpu, hsi⟩))
        hnd
    simp [TopicMap.create_topic_by_item_identifier, hfii, hfsi]
  · intro hnone
    have hfii : tm.topics.filter
        (fun u => u.hasItemIdentifier l.to_external_form) = [] :=
      List.filter_eq_nil_iff.mpr (fun u hu => by simp [(hnone u hu).1])
    have hfsi : tm.topics.filter
        (fun u => u.hasSubjectIdentifier l.to_external_form) = [] :=
      List.filter_eq_nil_iff.mpr (fun u hu => by simp [(hnone u hu).2])
    simp [TopicMap.create_topic_by_item_identifier, hfii, hfsi]

/-- Claim C2 (amended) witness: the collision map is well formed and, with
a non-topic construct owning the locator, the call still creates a fresh
topic bearing the locator. -/
theorem create_topic_by_item_identifier_topics_only_witness :
    collisionMap.wf ∧
    (∀ u ∈ collisionMap.topics,
      u.hasItemIdentifier collisionLoc.to_external_form = false ∧
      u.hasSubjectIdentifier collisionLoc.to_external_form = false) ∧
    collisionMap.create_topic_by_item_identifier (some collisionLoc) =
      .ok ({ id := collisionMap.next_id, topic_map := collisionMap.id,
             subject_identifiers := [],
             item_identifiers := [collisionLoc.to_external_form],
             subject_locators := [], types := [] },
           { collisionMap with
               topics := collisionMap.topics ++
                 [{ id := collisionMap.next_id, topic_map := collisionMap.id,
                    subject_identifiers := [],
                    item_identifiers := [collisionLoc.to_external_form],
                    subject_locators := [], types := [] }],
               next_id := collisionMap.next_id + 1 }) := by
  have hwf : collisionMap.wf := by
    constructor
    · simp [collisionMap]
    · intro t ht
      simp [collisionMap] at ht
  have hnone : ∀ u ∈ collisionMap.topics,
      u.hasItemIdentifier collisionLoc.to_external_form = false ∧
      u.hasSubjectIdentifier collisionLoc.to_external_form = false := by
    intro u hu
    simp [collisionMap] at hu
  exact ⟨hwf, hnone,
    (create_topic_by_item_identifier_topics_only collisionMap collisionLoc
      [] [] hwf).2.2.2 hnone⟩

/-- Claim C3: when `create_topic_by_subject_identifier` succeeds, calling it
again with the same locator returns the very same topic and leaves the map
unchanged: the second call finds the topic created or found by the first and
creates nothing new. -/
theorem create_topic_by_subject_identifier_idempotent (tm : TopicMap)
    (l : Locator) (t : Topic) (tm' : TopicMap)
    (hnd : (tm.topics.map Topic.id).Nodup)
    (h : tm.create_topic_by_subject_identifier (some l) = .ok (t, tm')) :
    tm'.create_topic_by_subject_identifier (some l) = .ok (t, tm') := by
  simp only [TopicMap.create_topic_by_subject_identifier] at h ⊢
  rcases hfsi : tm.topics.filter
      (fun u => u.hasSubjectIdentifier l.to_external_form) with
    _ | ⟨t₀, _ | ⟨t₁, rest⟩⟩
  · rw [hfsi] at h
    rcases hfii : tm.topics.filter
        (fun u => u.hasItemIdentifier l.to_external_form) with
      _ | ⟨u₀, _ | ⟨u₁, rest'⟩⟩
    · rw [hfii] at h
      simp only [Except.ok.injEq, Prod.mk.injEq] at h
      obtain ⟨ht, htm⟩ := h
      rw [← htm, ← ht]
      have hone : [({ id := tm.next_id, topic_map := tm.id,
                      subject_identifiers := [l.to_external_form],
                      item_identifiers := [], subject_locators := [],
                      types := [] } : Topic)].filter
          (fun u => u.hasSubjectIdentifier l.to_external_form) =
          [({ id := tm.next_id, topic_map := tm.id,
              subject_identifiers := [l.to_external_form],
              item_identifiers := [], subject_locators := [],
              types := [] } : Topic)] := by
        simp [Topic.hasSubjectIdentifier]
      simp only [List.filter_append, hfsi, hone, List.nil_append]
    · rw [hfii] at h
      simp only [Except.ok.injEq, Prod.mk.injEq] at h
      obtain ⟨ht, htm⟩ := h
      have hmem : u₀ ∈ tm.topics := by
        have hin : u₀ ∈ tm.topics.filter
            (fun u => u.hasItemIdentifier l.to_external_form) := by
          rw [hfii]
          exact List.mem_singleton_self u₀
        exact (List.mem_filter.mp hin).1
      have hnone : ∀ v ∈ tm.topics,
          (fun u => u.hasSubjectIdentifier l.to_external_form) v = false := by
        intro v hv
        have hv' := List.filter_eq_nil_iff.mp hfsi v hv
        simpa using hv'
      have hfil : (tm.topics.map (fun v =>
          if v.id = ({ u₀ with subject_identifiers :=
              u₀.subject_identifiers ++ [l.to_external_form] } : Topic).id
          then { u₀ with subject_identifiers :=
              u₀.subject_identifiers ++ [l.to_external_form] } else v)).filter
          (fun u => u.hasSubjectIdentifier l.to_external_form) =
          [{ u₀ with subject_identifiers :=
              u₀.subject_identifiers ++ [l.to_external_form] }] :=
        filter_update_eq_singleton u₀ rfl hmem hnd
          (by simp [Topic.hasSubjectIdentifier])
          (fun v hv hpv => absurd hpv (by simp [hnone v hv]))
      rw [← htm, ← ht]
      simp [TopicMap.updateTopic, hfil]
    · rw [hfii] at h
      exact Except.noConfusion h
  · rw [hfsi] at h
    simp only [Except.ok.injEq, Prod.mk.injEq] at h
    obtain ⟨ht, htm⟩ := h
    rw [← htm, ← ht, hfsi]
  · rw [hfsi] at h
    exact Except.noConfusion h

/-- Claim C3 witness: on the empty map the first call creates a topic and
the second call returns it unchanged. -/
theorem create_topic_by_subject_identifier_idempotent_witness :
    (emptyMap.topics.map Topic.id).Nodup ∧
    ({ id := 0,
       topics := [{ id := 0, topic_map := 0,
                    subject_identifiers := ["http://example.org/subject"],
                    item_identifiers := [], subject_locators := [],
                    types := [] }],
       other_item_identifiers := [], next_id := 1 } :
         TopicMap).create_topic_by_subject_identifier (some witnessLoc) =
      .ok ({ id := 0, topic_map := 0,
             subject_identifiers := ["http://example.org/subject"],
             item_identifiers := [], subject_locators := [], types := [] },
           { id := 0,
             topics := [{ id := 0, topic_map := 0,
                          subject_identifiers := ["http://example.org/subject"],
                          item_identifiers := [], subject_locators := [],
                          types := [] }],
             other_item_identifiers := [], next_id := 1 }) := by
  refine ⟨by simp [emptyMap], ?_⟩
  exact create_topic_by_subject_identifier_idempotent emptyMap witnessLoc
    _ _ (by simp [emptyMap]) rfl

theorem aliasing_ii_then_si (tm : TopicMap) (l : Locator) (hwf : tm.wf)
    (t₁ : Topic) (tm₁ : TopicMap) (t₂ : Topic) (tm₂ : TopicMap)
    (h₁ : tm.create_topic_by_item_identifier (some l) = .ok (t₁, tm₁))
    (h₂ : tm₁.create_topic_by_subject_identifier (some l) = .ok (t₂, tm₂)) :
    t₂.id = t₁.id ∧ tm₂.topics.length = tm₁.topics.length := by
  obtain ⟨hnd, huni⟩ := hwf
  simp only [TopicMap.create_topic_by_item_identifier] at h₁
  simp only [TopicMap.create_topic_by_subject_identifier] at h₂
  rcases hfii : tm.topics.filter
      (fun u => u.hasItemIdentifier l.to_external_form) with
    _ | ⟨t₀, _ | ⟨x, r⟩⟩
  · rw [hfii] at h₁
    rcases hfsi : tm.topics.filter
        (fun u => u.hasSubjectIdentifier l.to_external_form) with
      _ | ⟨u₀, _ | ⟨x, r⟩⟩
    · rw [hfsi] at h₁
      simp only [Except.ok.injEq, Prod.mk.injEq] at h₁
      obtain ⟨ht₁, htm₁⟩ := h₁
      rw [← htm₁] at h₂
      have hfsi1 : (tm.topics ++
          [({ id := tm.next_id, topic_map := tm.id,
              subject_identifiers := [],
              item_identifiers := [l.to_external_form],
              subject_locators := [], types := [] } : Topic)]).filter
          (fun u => u.hasSubjectIdentifier l.to_external_form) = [] := by
        rw [List.filter_append, hfsi]
        simp [Topic.hasSubjectIdentifier]
      have hfii1 : (tm.topics ++
          [({ id := tm.next_id, topic_map := tm.id,
              subject_identifiers := [],
              item_identifiers := [l.to_external_form],
              subject_locators := [], types := [] } : Topic)]).filter
          (fun u => u.hasItemIdentifier l.to_external_form) =
          [({ id := tm.next_id, topic_map := tm.id,
              subject_identifiers := [],
              item_identifiers := [l.to_external_form],
              subject_locators := [], types := [] } : Topic)] := by
        rw [List.filter_append, hfii]
        simp [Topic.hasItemIdentifier]
      simp only [hfsi1, hfii1] at h₂
      simp only [Except.ok.injEq, Prod.mk.injEq] at h₂
      obtain ⟨ht₂, htm₂⟩ := h₂
      constructor
      · rw [← ht₂, ← ht₁]
      · rw [← htm₂, ← htm₁]
        simp [TopicMap.updateTopic]
    · rw [hfsi] at h₁
      simp only [Except.ok.injEq, Prod.mk.injEq] at h₁
      obtain ⟨ht₁, htm₁⟩ := h₁
      have hu₀ : u₀ ∈ tm.topics ∧
          u₀.hasSubjectIdentifier l.to_external_form = true := by
        have hin : u₀ ∈ tm.topics.filter
            (fun u => u.hasSubjectIdentifier l.to_external_form) := by
          rw [hfsi]
          exact List.mem_singleton_self u₀
        exact List.mem_filter.mp hin
      have hfilSI : (tm.topics.map (fun v =>
          if v.id = ({ u₀ with item_identifiers :=
              u₀.item_identifiers ++ [l.to_external_form] } : Topic).id
          then { u₀ with item_identifiers :=
              u₀.item_identifiers ++ [l.to_external_form] } else v)).filter
          (fun u => u.hasSubjectIdentifier l.to_external_form) =
          [{ u₀ with item_identifiers :=
              u₀.item_identifiers ++ [l.to_external_form] }] :=
        filter_update_eq_singleton u₀ rfl hu₀.1 hnd hu₀.2
          (fun v hv hpv =>
            huni v hv u₀ hu₀.1 l.to_external_form (Or.inl ⟨hpv, hu₀.2⟩))
      rw [← htm₁] at h₂
      simp only [TopicMap.updateTopic] at h₂
      simp only [hfilSI] at h₂
      simp only [Except.ok.injEq, Prod.mk.injEq] at h₂
      obtain ⟨ht₂, htm₂⟩ := h₂
      constructor
      · rw [← ht₂, ← ht₁]
      · rw [← htm₂, ← htm₁]
        simp [TopicMap.updateTopic]
    · rw [hfsi] at h₁
      exact Except.noConfusion h₁
  · rw [hfii] at h₁
    simp only [Except.ok.injEq, Prod.mk.injEq] at h₁
    obtain ⟨ht₁, htm₁⟩ := h₁
    have ht₀ : t₀ ∈ tm.topics ∧
        t₀.hasItemIdentifier l.to_external_form = true := by
      have hin : t₀ ∈ tm.topics.filter
          (fun u => u.hasItemIdentifier l.to_external_form) := by
        rw [hfii]
        exact List.mem_singleton_self t₀
      exact List.mem_filter.mp hin
    rw [← htm₁] at h₂
    rcases hfsi : tm.topics.filter
        (fun u => u.hasSubjectIdentifier l.to_external_form) with
      _ | ⟨u₀, _ | ⟨x, r⟩⟩
    · rw [hfsi, hfii] at h₂
      simp only [Except.ok.injEq, Prod.mk.injEq] at h₂
      obtain ⟨ht₂, htm₂⟩ := h₂
      constructor
      · rw [← ht₂, ← ht₁]
      · rw [← htm₂, ← htm₁]
        simp [TopicMap.updateTopic]
    · rw [hfsi] at h₂
      simp only [Except.ok.injEq, Prod.mk.injEq] at h₂
      obtain ⟨ht₂, htm₂⟩ := h₂
      have hu₀ : u₀ ∈ tm.topics ∧
          u₀.hasSubjectIdentifier l.to_external_form = true := by
        have hin : u₀ ∈ tm.topics.filter
            (fun u => u.hasSubjectIdentifier l.to_external_form) := by
          rw [hfsi]
          exact List.mem_singleton_self u₀
        exact List.mem_filter.mp hin
      have hid0 : t₀.id = u₀.id :=
        huni t₀ ht₀.1 u₀ hu₀.1 l.to_external_form
          (Or.inr (Or.inr ⟨ht₀.2, hu₀.2⟩))
      constructor
      · rw [← ht₂, ← ht₁]
        exact hid0.symm
      · rw [← htm₂, ← htm₁]
    · rw [hfsi] at h₂
      exact Except.noConfusion h₂
  · rw [hfii] at h₁
    exact Except.noConfusion h₁

theorem aliasing_si_then_ii (tm : TopicMap) (l : Locator) (hwf : tm.wf)
    (t₁ : Topic) (tm₁ : TopicMap) (t₂ : Topic) (tm₂ : TopicMap)
    (h₁ : tm.create_topic_by_subject_identifier (some l) = .ok (t₁, tm₁))
    (h₂ : tm₁.create_topic_by_item_identifier (some l) = .ok (t₂, tm₂)) :
    t₂.id = t₁.id ∧ tm₂.topics.length = tm₁.topics.length := by
  obtain ⟨hnd, huni⟩ := hwf
  simp only [TopicMap.create_topic_by_subject_identifier] at h₁
  simp only [TopicMap.create_topic_by_item_identifier] at h₂
  rcases hfsi : tm.topics.filter
      (fun u => u.hasSubjectIdentifier l.to_external_form) with
    _ | ⟨t₀, _ | ⟨x, r⟩⟩
  · rw [hfsi] at h₁
    rcases hfii : tm.topics.filter
        (fun u => u.hasItemIdentifier l.to_external_form) with
      _ | ⟨u₀, _ | ⟨x, r⟩⟩
    · rw [hfii] at h₁
      simp only [Except.ok.injEq, Prod.mk.injEq] at h₁
      obtain ⟨ht₁, htm₁⟩ := h₁
      rw [← htm₁] at h₂
      have hfii1 : (tm.topics ++
          [({ id := tm.next_id, topic_map := tm.id,
              subject_identifiers := [l.to_external_form],
              item_identifiers := [],
              subject_locators := [], types := [] } : Topic)]).filter
          (fun u => u.hasItemIdentifier l.to_external_form) = [] := by
        rw [List.filter_append, hfii]
        simp [Topic.hasItemIdentifier]
      have hfsi1 : (tm.topics ++
          [({ id := tm.next_id, topic_map := tm.id,
              subject_identifiers := [l.to_external_form],
              item_identifiers := [],
              subject_locators := [], types := [] } : Topic)]).filter
          (fun u => u.hasSubjectIdentifier l.to_external_form) =
          [({ id := tm.next_id, topic_map := tm.id,
              subject_identifiers := [l.to_external_form],
              item_identifiers := [],
              subject_locators := [], types := [] } : Topic)] := by
        rw [List.filter_append, hfsi]
        simp [Topic.hasSubjectIdentifier]
      simp only [hfii1, hfsi1] at h₂
      simp only [Except.ok.injEq, Prod.mk.injEq] at h₂
      obtain ⟨ht₂, htm₂⟩ := h₂
      constructor
      · rw [← ht₂, ← ht₁]
      · rw [← htm₂, ← htm₁]
        simp [TopicMap.updateTopic]
    · rw [hfii] at h₁
      simp only [Except.ok.injEq, Prod.mk.injEq] at h₁
      obtain ⟨ht₁, htm₁⟩ := h₁
      have hu₀ : u₀ ∈ tm.topics ∧
          u₀.hasItemIdentifier l.to_external_form = true := by
        have hin : u₀ ∈ tm.topics.filter
            (fun u => u.hasItemIdentifier l.to_external_form) := by
          rw [hfii]
          exact List.mem_singleton_self u₀
        exact List.mem_filter.mp hin
      have hfilII : (tm.topics.map (fun v =>
          if v.id = ({ u₀ with subject_identifiers :=
              u₀.subject_identifiers ++ [l.to_external_form] } : Topic).id
          then { u₀ with subject_identifiers :=
              u₀.subject_identifiers ++ [l.to_external_form] } else v)).filter
          (fun u => u.hasItemIdentifier l.to_external_form) =
          [{ u₀ with subject_identifiers :=
              u₀.subject_identifiers ++ [l.to_external_form] }] :=
        filter_update_eq_singleton u₀ rfl hu₀.1 hnd hu₀.2
          (fun v hv hpv =>
            huni v hv u₀ hu₀.1 l.to_external_form
              (Or.inr (Or.inl ⟨hpv, hu₀.2⟩)))
      rw [← htm₁] at h₂
      simp only [TopicMap.updateTopic] at h₂
      simp only [hfilII] at h₂
      simp only [Except.ok.injEq, Prod.mk.injEq] at h₂
      obtain ⟨ht₂, htm₂⟩ := h₂
      constructor
      · rw [← ht₂, ← ht₁]
      · rw [← htm₂, ← htm₁]
        simp [TopicMap.updateTopic]
    · rw [hfii] at h₁
      exact Except.noConfusion h₁
  · rw [hfsi] at h₁
    simp only [Except.ok.injEq, Prod.mk.injEq] at h₁
    obtain ⟨ht₁, htm₁⟩ := h₁
    have ht₀ : t₀ ∈ tm.topics ∧
        t₀.hasSubjectIdentifier l.to_external_form = true := by
      have hin : t₀ ∈ tm.topics.filter
          (fun u => u.hasSubjectIdentifier l.to_external_form) := by
        rw [hfsi]
        exact List.mem_singleton_self t₀
      exact List.mem_filter.mp hin
    rw [← htm₁] at h₂
    rcases hfii : tm.topics.filter
        (fun u => u.hasItemIdentifier l.to_external_form) with
      _ | ⟨u₀, _ | ⟨x, r⟩⟩
    · rw [hfii, hfsi] at h₂
      simp only [Except.ok.injEq, Prod.mk.injEq] at h₂
      obtain ⟨ht₂, htm₂⟩ := h₂
      constructor
      · rw [← ht₂, ← ht₁]
      · rw [← htm₂, ← htm₁]
        simp [TopicMap.updateTopic]
    · rw [hfii] at h₂
      simp only [Except.ok.injEq, Prod.mk.injEq] at h₂
      obtain ⟨ht₂, htm₂⟩ := h₂
      have hu₀ : u₀ ∈ tm.topics ∧
          u₀.hasItemIdentifier l.to_external_form = true := by
        have hin : u₀ ∈ tm.topics.filter
            (fun u => u.hasItemIdentifier l.to_external_form) := by
          rw [hfii]
          exact List.mem_singleton_self u₀
        exact List.mem_filter.mp hin
      have hid0 : u₀.id = t₀.id :=
        huni u₀ hu₀.1 t₀ ht₀.1 l.to_external_form
          (Or.inr (Or.inr ⟨hu₀.2, ht₀.2⟩))
      constructor
      · rw [← ht₂, ← ht₁]
        exact hid0
      · rw [← htm₂, ← htm₁]
    · rw [hfii] at h₂
      exact Except.noConfusion h₂
  · rw [hfsi] at h₁
    exact Except.noConfusion h₁

/-- Claim C4: on a well-formed map, when `create_topic_by_item_identifier`
yields a topic, a subsequent `create_topic_by_subject_identifier` with the
same locator resolves to the very same topic and creates nothing new, and
symmetrically with the two calls exchanged. -/
theorem cross_identifier_aliasing (tm : TopicMap) (l : Locator)
    (hwf : tm.wf) :
    (∀ (t₁ : Topic) (tm₁ : TopicMap) (t₂ : Topic) (tm₂ : TopicMap),
      tm.create_topic_by_item_identifier (some l) = .ok (t₁, tm₁) →
      tm₁.create_topic_by_subject_identifier (some l) = .ok (t₂, tm₂) →
      t₂.id = t₁.id ∧ tm₂.topics.length = tm₁.topics.length) ∧
    (∀ (t₁ : Topic) (tm₁ : TopicMap) (t₂ : Topic) (tm₂ : TopicMap),
      tm.create_topic_by_subject_identifier (some l) = .ok (t₁, tm₁) →
      tm₁.create_topic_by_item_identifier (some l) = .ok (t₂, tm₂) →
      t₂.id = t₁.id ∧ tm₂.topics.length = tm₁.topics.length) :=
  ⟨fun t₁ tm₁ t₂ tm₂ h₁ h₂ =>
     aliasing_ii_then_si tm l hwf t₁ tm₁ t₂ tm₂ h₁ h₂,
   fun t₁ tm₁ t₂ tm₂ h₁ h₂ =>
     aliasing_si_then_ii tm l hwf t₁ tm₁ t₂ tm₂ h₁ h₂⟩

/-- Claim C4 witness: starting from the empty map, creating by item
identifier and then resolving by subject identifier yields the same topic
id and no new topic. -/
theorem cross_identifier_aliasing_witness :
    emptyMap.wf ∧
    (({ id := 0, topic_map := 0, subject_identifiers := ["http://example.org/subject"],
        item_identifiers := ["http://example.org/subject"],
        subject_locators := [], types := [] } : Topic).id =
      ({ id := 0, topic_map := 0, subject_identifiers := [],
         item_identifiers := ["http://example.org/subject"],
         subject_locators := [], types := [] } : Topic).id ∧
     ({ id := 0,
        topics := [{ id := 0, topic_map := 0,
                     subject_identifiers := ["http://example.org/subject"],
                     item_identifiers := ["http://example.org/subject"],
                     subject_locators := [], types := [] }],
        other_item_identifiers := [], next_id := 1 } :
          TopicMap).topics.length =
      ({ id := 0,
         topics := [{ id := 0, topic_map := 0,
                      subject_identifiers := [],
                      item_identifiers := ["http://example.org/subject"],
                      subject_locators := [], types := [] }],
         other_item_identifiers := [], next_id := 1 } :
           TopicMap).topics.length) := by
  have hwf : emptyMap.wf := by
    constructor
    · simp [emptyMap]
    · intro t ht
      simp [emptyMap] at ht
  exact ⟨hwf, (cross_identifier_aliasing emptyMap witnessLoc hwf).1
    _ _ _ _ rfl rfl⟩

end Tmapi
